import Mathlib

/-!
Shallow embedding of the Mollie payment plugin service (`MollieService`) and the
promotion service (`PromotionService`) of this repository, together with proofs
of the specified reconciliation properties.

The effectful TypeScript methods are translated as pure functions that return the
list of collaborator invocations they issue (the effect trace) together with an
outcome: the resulting local order on a normal return, or the thrown error (with
the partially mutated order) on an exception. External lookups (payment method,
provider order fetch, local order lookup) are passed in as inputs; fallible host
framework collaborators are represented by boolean success flags.
-/

namespace VendureMollie

/-- Provider-side order statuses (the `OrderStatus` enum of the Mollie client). -/
inductive OrderStatus
  | created
  | paid
  | authorized
  | canceled
  | shipping
  | completed
  | expired
  | pending
  deriving DecidableEq, Repr

/-- Local (Vendure) order states relevant to the plugin. -/
inductive OrderState
  | AddingItems
  | ArrangingPayment
  | ArrangingAdditionalPayment
  | PaymentAuthorized
  | PaymentSettled
  | Draft
  | Cancelled
  | Delivered
  | Modifying
  deriving DecidableEq, Repr

/-- Payment record statuses used by the plugin. -/
inductive PaymentStatus
  | Authorized
  | Settled
  deriving DecidableEq, Repr

/-- A decimal money amount of the provider API: whole units and hundredths. -/
structure Amount where
  units : Nat
  hundredths : Nat
  deriving DecidableEq, Repr

/-- Modelled from the spec: the helper `amountToCents` (from `mollie.helpers`, not in
the provided source) converts the provider's decimal amount to minor units (cents). -/
def amountToCents (a : Amount) : Nat := a.units * 100 + a.hundredths

/-- The provider's order as fetched from the payment provider client. -/
structure MollieOrder where
  id : String
  status : OrderStatus
  amount : Amount
  orderNumber : String
  deriving DecidableEq, Repr

/-- A payment record attached to a local order. `transactionId` is the provider
order id that created it (absent for payments settled without the provider). -/
structure Payment where
  id : Nat
  transactionId : Option String
  amount : Nat
  status : PaymentStatus
  deriving DecidableEq, Repr

/-- The local order as read from the order store. -/
structure LocalOrder where
  code : String
  state : OrderState
  payments : List Payment
  orderPlacedAt : Option Nat
  deriving DecidableEq, Repr

/-- The payment method configuration resolved from the handler arguments. -/
structure PaymentMethodConfig where
  code : String
  apiKey : Option String
  autoCapture : Bool
  deriving DecidableEq, Repr

/-- Behaviour of the fallible host framework collaborators for one call: whether a
requested state transition succeeds, whether attaching a payment is accepted, and
whether settling a payment succeeds. -/
structure Collab where
  transitionOk : Bool
  attachOk : Bool
  settleOk : Bool
  deriving DecidableEq, Repr

/-- A collaborator invocation issued during a call (the effect trace records these
in order, also on paths that later abort with an error). -/
inductive Eff
  | logInfo
  | logWarn
  | logError
  | fetchExternalOrder (orderId : String)
  | findOrderByCode (code : String)
  | transitionState (target : OrderState)
  | attachPayment (amount : Nat) (txId : Option String) (status : PaymentStatus)
  | settlePayment (paymentId : Nat)
  | refund (txId : String)
  | createExternalOrder (amount : Int)
  deriving DecidableEq, Repr

/-- Errors thrown by the reconciliation path. -/
inductive HandleError
  | noApiKey
  | orderNotFound
  | stateTransitionError (fromState toState : OrderState)
  | paymentAttachError
  | paymentNotFound (txId : String)
  | settlementError
  | unhandledTransition (status : OrderStatus) (state : OrderState)
  deriving DecidableEq, Repr

/-- Outcome of a sub-operation: the refreshed order, or a thrown error together
with the order as it stood when the error was raised. -/
inductive Outcome
  | ok (o : LocalOrder)
  | err (e : HandleError) (o : LocalOrder)
  deriving DecidableEq, Repr

/-- Result of `handleMollieStatusUpdate`: silent return before any order was
resolved, a normal return with the final order, or a thrown error. -/
inductive HResult
  | silentReturn
  | done (o : LocalOrder)
  | fatal (e : HandleError) (o : Option LocalOrder)
  deriving DecidableEq, Repr

/-- Lift a sub-operation outcome into a handler result. -/
def outcomeToHResult : Outcome → HResult
  | Outcome.ok o => HResult.done o
  | Outcome.err e o => HResult.fatal e (some o)

/-- Modelled from the spec: `orderService.addPaymentToOrder` (host framework, not in
the provided source) records a new Payment whose `transactionId` is the provider
order id that created it; the payment completing the order's payment cycle, the
framework moves the order to `PaymentAuthorized` (authorized payment) or
`PaymentSettled` (settled payment) and stamps the placement timestamp. -/
def attachPaymentToOrder (o : LocalOrder) (amount : Nat) (txId : Option String)
    (status : PaymentStatus) : LocalOrder :=
  let p : Payment :=
    { id := o.payments.length, transactionId := txId, amount := amount, status := status }
  { o with
    payments := o.payments ++ [p]
    state := match status with
      | PaymentStatus.Authorized => OrderState.PaymentAuthorized
      | PaymentStatus.Settled => OrderState.PaymentSettled
    orderPlacedAt := some (o.orderPlacedAt.getD 0) }

/-- Modelled from the spec: `orderService.settlePayment` (host framework, not in the
provided source) marks the located payment `Settled` and completes the order's
payment cycle (`PaymentSettled`). -/
def settlePaymentInOrder (o : LocalOrder) (pid : Nat) : LocalOrder :=
  { o with
    payments := o.payments.map fun p =>
      if p.id = pid then { p with status := PaymentStatus.Settled } else p
    state := OrderState.PaymentSettled }

/-- The attach step shared by both branches of `addPayment`: issue the
`addPaymentToOrder` call, failing with a fatal error when the store rejects it. -/
def attachStep (c : Collab) (pre : List Eff) (o : LocalOrder) (amount : Nat)
    (txId : Option String) (status : PaymentStatus) : List Eff × Outcome :=
  if c.attachOk then
    (pre ++ [Eff.attachPayment amount txId status],
      Outcome.ok (attachPaymentToOrder o amount txId status))
  else
    (pre ++ [Eff.attachPayment amount txId status], Outcome.err HandleError.paymentAttachError o)

/-- `MollieService.addPayment`: when the order is not already arranging a payment,
first request a transition to `ArrangingPayment` (a failure is fatal and aborts),
then attach the payment record with the provider metadata. -/
def addPayment (c : Collab) (o : LocalOrder) (amount : Nat) (txId : Option String)
    (status : PaymentStatus) : List Eff × Outcome :=
  if o.state ≠ OrderState.ArrangingPayment ∧ o.state ≠ OrderState.ArrangingAdditionalPayment then
    if c.transitionOk then
      attachStep c [Eff.transitionState OrderState.ArrangingPayment]
        { o with state := OrderState.ArrangingPayment } amount txId status
    else
      ([Eff.transitionState OrderState.ArrangingPayment],
        Outcome.err (HandleError.stateTransitionError o.state OrderState.ArrangingPayment) o)
  else
    attachStep c [] o amount txId status

/-- `MollieService.settleExistingPayment`: re-read the order's payments, locate the
payment whose `transactionId` equals the provider order id, fail when absent, and
request settlement of it (a failure result is converted to a fatal error). -/
def settleExistingPayment (c : Collab) (o : LocalOrder) (mollieOrderId : String) :
    List Eff × Outcome :=
  match o.payments.find? (fun p => p.transactionId == some mollieOrderId) with
  | none => ([], Outcome.err (HandleError.paymentNotFound mollieOrderId) o)
  | some p =>
    if c.settleOk then
      ([Eff.settlePayment p.id], Outcome.ok (settlePaymentInOrder o p.id))
    else
      ([Eff.settlePayment p.id], Outcome.err HandleError.settlementError o)

/-- The provider statuses that trigger reconciliation action. -/
def mollieStatesThatRequireAction : List OrderStatus :=
  [OrderStatus.completed, OrderStatus.authorized, OrderStatus.paid]

/-- The local order states eligible for reconciliation action. -/
def vendureStatesThatRequireAction : List OrderState :=
  [OrderState.AddingItems, OrderState.ArrangingPayment, OrderState.ArrangingAdditionalPayment,
    OrderState.PaymentAuthorized, OrderState.Draft]

/-- The collaborator invocations every reconciliation run issues once the payment
method resolved with an api key: the provider fetch and the order lookup. -/
def handleBaseEffs (orderId code : String) : List Eff :=
  [Eff.fetchExternalOrder orderId, Eff.logInfo, Eff.findOrderByCode code]

/-- `MollieService.handleMollieStatusUpdate`: resolve the payment method (silent
return when unknown, fatal when it has no api key), fetch the provider order, look
up the local order by code, run the status gate, the duplicate-payment gate and
the state gate, then the status/state decision table. -/
def handleMollieStatusUpdate (c : Collab) (paymentMethodLookup : Option PaymentMethodConfig)
    (mollieOrder : MollieOrder) (orderLookup : Option LocalOrder) (orderId : String) :
    List Eff × HResult :=
  match paymentMethodLookup with
  | none => ([Eff.logWarn], HResult.silentReturn)
  | some pm =>
    match pm.apiKey with
    | none => ([], HResult.fatal HandleError.noApiKey none)
    | some _ =>
      let effs0 : List Eff := handleBaseEffs orderId mollieOrder.orderNumber
      match orderLookup with
      | none => (effs0, HResult.fatal HandleError.orderNotFound none)
      | some order =>
        if mollieOrder.status ∉ mollieStatesThatRequireAction then
          (effs0 ++ [Eff.logInfo], HResult.done order)
        else if order.orderPlacedAt.isSome ∧
            order.payments.find? (fun p => p.transactionId == some mollieOrder.id) = none then
          (effs0 ++ [Eff.logError], HResult.done order)
        else if order.state ∉ vendureStatesThatRequireAction then
          (effs0 ++ [Eff.logInfo], HResult.done order)
        else
          let amount := amountToCents mollieOrder.amount
          if mollieOrder.status = OrderStatus.paid then
            let r := addPayment c order amount (some mollieOrder.id) PaymentStatus.Settled
            (effs0 ++ r.1, outcomeToHResult r.2)
          else if order.state = OrderState.AddingItems ∧
              mollieOrder.status = OrderStatus.authorized then
            match addPayment c order amount (some mollieOrder.id) PaymentStatus.Authorized with
            | (es, Outcome.ok o1) =>
              if pm.autoCapture ∧ mollieOrder.status = OrderStatus.authorized then
                let r2 := settleExistingPayment c o1 mollieOrder.id
                (effs0 ++ es ++ [Eff.logInfo] ++ r2.1, outcomeToHResult r2.2)
              else
                (effs0 ++ es, HResult.done o1)
            | (es, Outcome.err e o1) => (effs0 ++ es, HResult.fatal e (some o1))
          else if order.state = OrderState.PaymentAuthorized ∧
              mollieOrder.status = OrderStatus.completed then
            let r := settleExistingPayment c order mollieOrder.id
            (effs0 ++ r.1, outcomeToHResult r.2)
          else if pm.autoCapture ∧ mollieOrder.status = OrderStatus.completed then
            (effs0, HResult.done order)
          else
            (effs0,
              HResult.fatal (HandleError.unhandledTransition mollieOrder.status order.state)
                (some order))

/-- Whether an effect is a mutating collaborator invocation (state transition,
payment attach, payment settlement, or refund). -/
def Eff.isMutation : Eff → Bool
  | Eff.transitionState _ => true
  | Eff.attachPayment _ _ _ => true
  | Eff.settlePayment _ => true
  | Eff.refund _ => true
  | _ => false

/-- Whether an effect is a payment-attach invocation. -/
def Eff.isAttach : Eff → Bool
  | Eff.attachPayment _ _ _ => true
  | _ => false

/-- Whether an effect is a payment-settlement invocation. -/
def Eff.isSettle : Eff → Bool
  | Eff.settlePayment _ => true
  | _ => false

/-- Whether an effect is a refund invocation (the reconciliation code never issues
one: double payments are left for manual refunding). -/
def Eff.isRefund : Eff → Bool
  | Eff.refund _ => true
  | _ => false

/-- Number of payments of an order carrying a given provider transaction id. -/
def txCount (o : LocalOrder) (tx : String) : Nat :=
  (o.payments.filter fun p => p.transactionId == some tx).length

/-- Modelled from the spec: the helper `totalCoveredByPayments` (host framework, not
in the provided source) computes the amount already covered by the order's existing
payments. -/
def totalCoveredByPayments (payments : List Payment) : Nat :=
  (payments.map fun p => p.amount).sum

/-- The client input of `createPaymentIntent`. -/
structure IntentInput where
  redirectUrl : Option String
  molliePaymentMethodCode : Option String
  deriving DecidableEq, Repr

/-- The payment method configuration resolved for intent creation. -/
structure IntentMethod where
  code : String
  apiKey : Option String
  fallbackRedirect : Option String
  deriving DecidableEq, Repr

/-- The hydrated order as read for intent creation: the order store record plus the
order total, the customer name fields, and whether a complete billing or shipping
address is available. -/
structure IntentOrder where
  ord : LocalOrder
  totalWithTax : Nat
  customerFirstName : String
  customerLastName : String
  hasCompleteAddress : Bool
  deriving DecidableEq, Repr

/-- Result of `createPaymentIntent`: a checkout or redirect url, a typed
order-payment-state error value, a typed ineligible-input error value, or a thrown
error. -/
inductive IntentResult
  | url (u : String)
  | stateError
  | inputError
  | fatalError
  deriving DecidableEq, Repr

/-- Remove a trailing slash, as `createPaymentIntent` does for the fallback
redirect. -/
def stripTrailingSlash (s : String) : String :=
  if s.endsWith "/" then s.dropRight 1 else s

/-- The body of `createPaymentIntent` once the provider method code has been
validated: order and payment method lookups, eligibility, transitionability,
customer-name, redirect, api-key and address gates, then the outstanding-amount
computation: settle directly with a zero-amount payment when nothing is left to
pay, otherwise create a provider order and return its hosted checkout url. -/
def createPaymentIntentChecked (c : Collab) (input : IntentInput)
    (orderLookup : Option IntentOrder) (methodLookup : Option IntentMethod)
    (isEligible : Bool) (canTransition : Bool) (checkoutUrl : Option String) :
    List Eff × IntentResult :=
  match orderLookup with
  | none => ([], IntentResult.stateError)
  | some io =>
    match methodLookup with
    | none => ([], IntentResult.stateError)
    | some pm =>
      if ¬ isEligible then ([], IntentResult.inputError)
      else if (io.ord.state ≠ OrderState.ArrangingPayment ∧
          io.ord.state ≠ OrderState.ArrangingAdditionalPayment) ∧ ¬ canTransition then
        ([], IntentResult.stateError)
      else if io.customerFirstName.isEmpty then ([], IntentResult.stateError)
      else if io.customerLastName.isEmpty then ([], IntentResult.stateError)
      else
        match (match input.redirectUrl with
          | some r => some r
          | none =>
            pm.fallbackRedirect.map fun f => stripTrailingSlash f ++ "/" ++ io.ord.code) with
        | none => ([], IntentResult.stateError)
        | some redirectUrl =>
          match pm.apiKey with
          | none => ([], IntentResult.stateError)
          | some _ =>
            if ¬ io.hasCompleteAddress then ([], IntentResult.inputError)
            else
              let alreadyPaid := totalCoveredByPayments io.ord.payments
              let amountToPay : Int := (io.totalWithTax : Int) - (alreadyPaid : Int)
              if amountToPay = 0 then
                match addPayment c io.ord 0 none PaymentStatus.Settled with
                | (es, Outcome.ok _) => (es, IntentResult.url redirectUrl)
                | (es, Outcome.err _ _) => (es, IntentResult.fatalError)
              else
                match checkoutUrl with
                | none => ([Eff.createExternalOrder amountToPay], IntentResult.fatalError)
                | some u => ([Eff.createExternalOrder amountToPay], IntentResult.url u)

/-- `MollieService.createPaymentIntent`: validate the requested provider payment
method code against the allowed methods, then run the checked body. -/
def createPaymentIntent (c : Collab) (allowedMethods : List String) (input : IntentInput)
    (orderLookup : Option IntentOrder) (methodLookup : Option IntentMethod)
    (isEligible : Bool) (canTransition : Bool) (checkoutUrl : Option String) :
    List Eff × IntentResult :=
  match input.molliePaymentMethodCode with
  | some mcode =>
    if mcode ∉ allowedMethods then ([], IntentResult.inputError)
    else
      createPaymentIntentChecked c input orderLookup methodLookup isEligible canTransition
        checkoutUrl
  | none =>
    createPaymentIntentChecked c input orderLookup methodLookup isEligible canTransition
      checkoutUrl

end VendureMollie

namespace VendurePromotion

/-- A promotion entity as persisted in the store. Conditions and actions are kept
as their operation codes. -/
structure Promotion where
  id : Nat
  name : String
  enabled : Bool
  conditions : List String
  actions : List String
  deriving DecidableEq, Repr

/-- The service-visible state: the persisted promotions, the next fresh entity id,
and the in-memory cache of active promotions. -/
structure PromoState where
  store : List Promotion
  nextId : Nat
  activePromotions : List Promotion
  deriving DecidableEq, Repr

/-- Input of `createPromotion`. -/
structure CreateInput where
  name : String
  enabled : Bool
  conditions : List String
  actions : List String
  deriving DecidableEq, Repr

/-- Input of `updatePromotion`; absent fields are left unpatched. -/
structure UpdateInput where
  id : Nat
  name : Option String
  enabled : Option Bool
  conditions : Option (List String)
  actions : Option (List String)
  deriving DecidableEq, Repr

/-- Errors thrown by the promotion service. -/
inductive PromoError
  | entityNotFound (id : Nat)
  | operationCodeNotFound (code : String)
  deriving DecidableEq, Repr

/-- `parseOperationArgs` reduced to what the claims need: the referenced operation
code must exist among the available conditions or actions, else the call throws. -/
def parseOperationArgs (available : List String) (code : String) :
    Except PromoError String :=
  if code ∈ available then Except.ok code
  else Except.error (PromoError.operationCodeNotFound code)

/-- `updatePromotions` (private): refresh the `activePromotions` cache from the
store, keeping exactly the promotions with `enabled = true`. -/
def updatePromotions (s : PromoState) : PromoState :=
  { s with activePromotions := s.store.filter fun p => p.enabled }

/-- `createPromotion`: parse the condition and action codes, save the new
promotion, refresh the cache, and return the saved entity. A parse failure throws
before anything is saved. -/
def createPromotion (availableConditions availableActions : List String) (s : PromoState)
    (input : CreateInput) : PromoState × Except PromoError Promotion :=
  match input.conditions.mapM (parseOperationArgs availableConditions),
      input.actions.mapM (parseOperationArgs availableActions) with
  | Except.ok conds, Except.ok acts =>
    let p : Promotion :=
      { id := s.nextId, name := input.name, enabled := input.enabled,
        conditions := conds, actions := acts }
    let s1 := updatePromotions { s with store := s.store ++ [p], nextId := s.nextId + 1 }
    (s1, Except.ok p)
  | Except.error e, _ => (s, Except.error e)
  | _, Except.error e => (s, Except.error e)

/-- `patchEntity` applied to a promotion: patch the scalar fields present in the
update input (conditions and actions are handled separately). -/
def patchPromotion (p : Promotion) (input : UpdateInput) : Promotion :=
  { p with name := input.name.getD p.name, enabled := input.enabled.getD p.enabled }

/-- Parse an optional list of operation codes (absent input leaves the entity's
list unchanged). -/
def parseOptionalOps (available : List String) :
    Option (List String) → Except PromoError (Option (List String))
  | none => Except.ok none
  | some cs => (cs.mapM (parseOperationArgs available)).map some

/-- `updatePromotion`: find the promotion by id (throwing entity-not-found when
absent, leaving the state untouched), patch it, parse any given condition and
action codes, save, refresh the cache, and return the updated entity. -/
def updatePromotion (availableConditions availableActions : List String) (s : PromoState)
    (input : UpdateInput) : PromoState × Except PromoError Promotion :=
  match s.store.find? (fun q => q.id == input.id) with
  | none => (s, Except.error (PromoError.entityNotFound input.id))
  | some ex =>
    let base := patchPromotion ex input
    match parseOptionalOps availableConditions input.conditions,
        parseOptionalOps availableActions input.actions with
    | Except.ok conds, Except.ok acts =>
      let updated :=
        { base with conditions := conds.getD base.conditions, actions := acts.getD base.actions }
      let s1 := updatePromotions
        { s with store := s.store.map fun q => if q.id == input.id then updated else q }
      (s1, Except.ok updated)
    | Except.error e, _ => (s, Except.error e)
    | _, Except.error e => (s, Except.error e)

end VendurePromotion

namespace VendureMollie

/-- Sample collaborator behaviour where every framework call succeeds. -/
def allOk : Collab := ⟨true, true, true⟩

/-- Sample payment method configuration with an api key, auto-capture disabled. -/
def samplePm : PaymentMethodConfig := ⟨"mollie", some "key", false⟩

/-- Sample payment method configuration with an api key, auto-capture enabled. -/
def samplePmAC : PaymentMethodConfig := ⟨"mollie", some "key", true⟩

/-- Sample provider order with status `paid` over 10.00 units. -/
def samplePaidMO : MollieOrder := ⟨"ord_1", OrderStatus.paid, ⟨10, 0⟩, "X"⟩

/-- Sample provider order with status `authorized` over 10.00 units. -/
def sampleAuthMO : MollieOrder := ⟨"ord_1", OrderStatus.authorized, ⟨10, 0⟩, "X"⟩

/-- Sample provider order with status `completed` over 10.00 units. -/
def sampleCompletedMO : MollieOrder := ⟨"ord_1", OrderStatus.completed, ⟨10, 0⟩, "X"⟩

/-- Sample local order arranging payment, no payments yet. -/
def sampleArrangingLO : LocalOrder := ⟨"X", OrderState.ArrangingPayment, [], none⟩

/-- Sample local order still adding items, no payments yet. -/
def sampleAddingLO : LocalOrder := ⟨"X", OrderState.AddingItems, [], none⟩

/-- Sample placed local order with an authorized payment for provider order
`ord_1`. -/
def sampleAuthorizedLO : LocalOrder :=
  ⟨"X", OrderState.PaymentAuthorized, [⟨0, some "ord_1", 1000, PaymentStatus.Authorized⟩],
    some 1⟩

theorem find?_eq_none_of_txCount_zero (o : LocalOrder) (tx : String)
    (h : txCount o tx = 0) :
    o.payments.find? (fun p => p.transactionId == some tx) = none := by
  rw [List.find?_eq_none]
  intro x hx hpx
  have hmem : x ∈ o.payments.filter (fun p => p.transactionId == some tx) :=
    List.mem_filter.mpr ⟨hx, hpx⟩
  rw [txCount, List.length_eq_zero] at h
  rw [h] at hmem
  exact absurd hmem (List.not_mem_nil x)

theorem txCount_of_state_update (o : LocalOrder) (st : OrderState) (tx : String) :
    txCount { o with state := st } tx = txCount o tx := rfl

theorem attach_payments_eq (o : LocalOrder) (a : Nat) (t : Option String) (s : PaymentStatus) :
    (attachPaymentToOrder o a t s).payments =
      o.payments ++ [{ id := o.payments.length, transactionId := t, amount := a, status := s }] :=
  rfl

theorem attach_placed_eq (o : LocalOrder) (a : Nat) (t : Option String) (s : PaymentStatus) :
    (attachPaymentToOrder o a t s).orderPlacedAt = some (o.orderPlacedAt.getD 0) := rfl

theorem attach_state_settled (o : LocalOrder) (a : Nat) (t : Option String) :
    (attachPaymentToOrder o a t PaymentStatus.Settled).state = OrderState.PaymentSettled := rfl

theorem attach_state_authorized (o : LocalOrder) (a : Nat) (t : Option String) :
    (attachPaymentToOrder o a t PaymentStatus.Authorized).state =
      OrderState.PaymentAuthorized := rfl

theorem txCount_attach (o : LocalOrder) (a : Nat) (tx : String) (s : PaymentStatus) :
    txCount (attachPaymentToOrder o a (some tx) s) tx = txCount o tx + 1 := by
  simp [txCount, attachPaymentToOrder, List.filter_append]

theorem find?_attach_ne_none (o : LocalOrder) (a : Nat) (tx : String) (s : PaymentStatus) :
    (attachPaymentToOrder o a (some tx) s).payments.find?
      (fun p => p.transactionId == some tx) ≠ none := by
  intro h
  rw [List.find?_eq_none] at h
  have hmem : (⟨o.payments.length, some tx, a, s⟩ : Payment)
      ∈ (attachPaymentToOrder o a (some tx) s).payments := by
    rw [attach_payments_eq]
    exact List.mem_append_right _ (List.mem_singleton.mpr rfl)
  have := h _ hmem
  simp at this

theorem settle_keeps_tx (p : Payment) (pid : Nat) :
    (if p.id = pid then { p with status := PaymentStatus.Settled } else p).transactionId
      = p.transactionId := by
  by_cases h : p.id = pid <;> simp [h]

theorem settle_state_eq (o : LocalOrder) (pid : Nat) :
    (settlePaymentInOrder o pid).state = OrderState.PaymentSettled := rfl

theorem settle_placed_eq (o : LocalOrder) (pid : Nat) :
    (settlePaymentInOrder o pid).orderPlacedAt = o.orderPlacedAt := rfl

theorem txCount_settle (o : LocalOrder) (pid : Nat) (tx : String) :
    txCount (settlePaymentInOrder o pid) tx = txCount o tx := by
  unfold txCount settlePaymentInOrder
  simp only [List.filter_map, List.length_map]
  congr 1
  apply List.filter_congr
  intro p _
  rw [Function.comp_apply, settle_keeps_tx]

theorem find?_settle_ne_none (o : LocalOrder) (pid : Nat) (tx : String)
    (h : o.payments.find? (fun p => p.transactionId == some tx) ≠ none) :
    (settlePaymentInOrder o pid).payments.find?
      (fun p => p.transactionId == some tx) ≠ none := by
  intro hc
  apply h
  rw [List.find?_eq_none] at hc ⊢
  intro x hx
  have := hc _ (List.mem_map.mpr ⟨x, hx, rfl⟩)
  rwa [settle_keeps_tx] at this

theorem addPayment_arranging (c : Collab) (o : LocalOrder) (a : Nat) (t : Option String)
    (s : PaymentStatus)
    (harr : o.state = OrderState.ArrangingPayment ∨ o.state = OrderState.ArrangingAdditionalPayment)
    (hat : c.attachOk = true) :
    addPayment c o a t s =
      ([Eff.attachPayment a t s], Outcome.ok (attachPaymentToOrder o a t s)) := by
  rcases harr with h | h <;> simp [addPayment, attachStep, h, hat]

theorem addPayment_transitioning (c : Collab) (o : LocalOrder) (a : Nat) (t : Option String)
    (s : PaymentStatus)
    (harr : o.state ≠ OrderState.ArrangingPayment ∧ o.state ≠ OrderState.ArrangingAdditionalPayment)
    (htr : c.transitionOk = true) (hat : c.attachOk = true) :
    addPayment c o a t s =
      ([Eff.transitionState OrderState.ArrangingPayment, Eff.attachPayment a t s],
        Outcome.ok (attachPaymentToOrder { o with state := OrderState.ArrangingPayment } a t s)) := by
  simp [addPayment, attachStep, harr.1, harr.2, htr, hat]

theorem addPayment_attach_fails_arranging (c : Collab) (o : LocalOrder) (a : Nat)
    (t : Option String) (s : PaymentStatus)
    (harr : o.state = OrderState.ArrangingPayment ∨
      o.state = OrderState.ArrangingAdditionalPayment)
    (hat : c.attachOk = false) :
    addPayment c o a t s =
      ([Eff.attachPayment a t s], Outcome.err HandleError.paymentAttachError o) := by
  rcases harr with h | h <;> simp [addPayment, attachStep, h, hat]

theorem addPayment_attach_fails_transitioning (c : Collab) (o : LocalOrder) (a : Nat)
    (t : Option String) (s : PaymentStatus)
    (harr : o.state ≠ OrderState.ArrangingPayment ∧
      o.state ≠ OrderState.ArrangingAdditionalPayment)
    (htr : c.transitionOk = true) (hat : c.attachOk = false) :
    addPayment c o a t s =
      ([Eff.transitionState OrderState.ArrangingPayment, Eff.attachPayment a t s],
        Outcome.err HandleError.paymentAttachError
          { o with state := OrderState.ArrangingPayment }) := by
  simp [addPayment, attachStep, harr.1, harr.2, htr, hat]

theorem addPayment_transition_fails (c : Collab) (o : LocalOrder) (a : Nat) (t : Option String)
    (s : PaymentStatus)
    (harr : o.state ≠ OrderState.ArrangingPayment ∧ o.state ≠ OrderState.ArrangingAdditionalPayment)
    (htr : c.transitionOk = false) :
    addPayment c o a t s =
      ([Eff.transitionState OrderState.ArrangingPayment],
        Outcome.err (HandleError.stateTransitionError o.state OrderState.ArrangingPayment) o) := by
  simp [addPayment, attachStep, harr.1, harr.2, htr]

theorem settleExisting_not_found (c : Collab) (o : LocalOrder) (mid : String)
    (hfind : o.payments.find? (fun p => p.transactionId == some mid) = none) :
    settleExistingPayment c o mid = ([], Outcome.err (HandleError.paymentNotFound mid) o) := by
  simp [settleExistingPayment, hfind]

theorem settleExisting_found (c : Collab) (o : LocalOrder) (mid : String) (p : Payment)
    (hfind : o.payments.find? (fun q => q.transactionId == some mid) = some p)
    (hok : c.settleOk = true) :
    settleExistingPayment c o mid =
      ([Eff.settlePayment p.id], Outcome.ok (settlePaymentInOrder o p.id)) := by
  simp [settleExistingPayment, hfind, hok]

theorem settleExisting_found_fails (c : Collab) (o : LocalOrder) (mid : String) (p : Payment)
    (hfind : o.payments.find? (fun q => q.transactionId == some mid) = some p)
    (hko : c.settleOk = false) :
    settleExistingPayment c o mid =
      ([Eff.settlePayment p.id], Outcome.err HandleError.settlementError o) := by
  simp [settleExistingPayment, hfind, hko]

theorem settleExisting_found_trace (c : Collab) (o : LocalOrder) (mid : String) (p : Payment)
    (hfind : o.payments.find? (fun q => q.transactionId == some mid) = some p) :
    (settleExistingPayment c o mid).1 = [Eff.settlePayment p.id] := by
  cases hc : c.settleOk <;> simp [settleExistingPayment, hfind, hc]

theorem state_update_payments (o : LocalOrder) (st : OrderState) :
    ({ o with state := st } : LocalOrder).payments = o.payments := rfl

theorem find?_attach_new (o : LocalOrder) (a : Nat) (tx : String) (s : PaymentStatus)
    (hfind : o.payments.find? (fun p => p.transactionId == some tx) = none) :
    (attachPaymentToOrder o a (some tx) s).payments.find?
      (fun p => p.transactionId == some tx) =
      some ⟨o.payments.length, some tx, a, s⟩ := by
  rw [attach_payments_eq, List.find?_append, hfind]
  simp

theorem handle_status_gate (c : Collab) (pm : PaymentMethodConfig) (k : String)
    (m : MollieOrder) (o : LocalOrder) (oid : String)
    (hk : pm.apiKey = some k)
    (hs : m.status ∉ mollieStatesThatRequireAction) :
    handleMollieStatusUpdate c (some pm) m (some o) oid =
      (handleBaseEffs oid m.orderNumber ++ [Eff.logInfo], HResult.done o) := by
  simp [handleMollieStatusUpdate, hk, hs]

theorem handle_duplicate_gate (c : Collab) (pm : PaymentMethodConfig) (k : String)
    (m : MollieOrder) (o : LocalOrder) (oid : String)
    (hk : pm.apiKey = some k)
    (hs : m.status ∈ mollieStatesThatRequireAction)
    (hplaced : o.orderPlacedAt.isSome = true)
    (hfind : o.payments.find? (fun p => p.transactionId == some m.id) = none) :
    handleMollieStatusUpdate c (some pm) m (some o) oid =
      (handleBaseEffs oid m.orderNumber ++ [Eff.logError], HResult.done o) := by
  simp [handleMollieStatusUpdate, hk, hs, hplaced, hfind]

theorem handle_state_gate (c : Collab) (pm : PaymentMethodConfig) (k : String)
    (m : MollieOrder) (o : LocalOrder) (oid : String)
    (hk : pm.apiKey = some k)
    (hs : m.status ∈ mollieStatesThatRequireAction)
    (hdup : ¬(o.orderPlacedAt.isSome = true ∧
      o.payments.find? (fun p => p.transactionId == some m.id) = none))
    (hst : o.state ∉ vendureStatesThatRequireAction) :
    handleMollieStatusUpdate c (some pm) m (some o) oid =
      (handleBaseEffs oid m.orderNumber ++ [Eff.logInfo], HResult.done o) := by
  simp only [handleMollieStatusUpdate, hk]
  rw [if_neg (by simpa using hs), if_neg (by simpa using hdup), if_pos hst]

theorem handle_paid_branch (c : Collab) (pm : PaymentMethodConfig) (k : String)
    (m : MollieOrder) (o : LocalOrder) (oid : String)
    (hk : pm.apiKey = some k)
    (hs : m.status = OrderStatus.paid)
    (hdup : ¬(o.orderPlacedAt.isSome = true ∧
      o.payments.find? (fun p => p.transactionId == some m.id) = none))
    (hst : o.state ∈ vendureStatesThatRequireAction) :
    handleMollieStatusUpdate c (some pm) m (some o) oid =
      (handleBaseEffs oid m.orderNumber ++
          (addPayment c o (amountToCents m.amount) (some m.id) PaymentStatus.Settled).1,
        outcomeToHResult
          (addPayment c o (amountToCents m.amount) (some m.id) PaymentStatus.Settled).2) := by
  simp only [handleMollieStatusUpdate, hk]
  rw [if_neg (by simp [hs, mollieStatesThatRequireAction]), if_neg (by simpa using hdup),
    if_neg (by simpa using hst), if_pos hs]

theorem handle_authorized_branch_ok (c : Collab) (pm : PaymentMethodConfig) (k : String)
    (m : MollieOrder) (o o1 : LocalOrder) (oid : String) (es : List Eff)
    (hk : pm.apiKey = some k)
    (hs : m.status = OrderStatus.authorized)
    (hdup : ¬(o.orderPlacedAt.isSome = true ∧
      o.payments.find? (fun p => p.transactionId == some m.id) = none))
    (hst : o.state = OrderState.AddingItems)
    (haddp : addPayment c o (amountToCents m.amount) (some m.id) PaymentStatus.Authorized =
      (es, Outcome.ok o1)) :
    handleMollieStatusUpdate c (some pm) m (some o) oid =
      (if pm.autoCapture then
        (handleBaseEffs oid m.orderNumber ++ es ++ [Eff.logInfo] ++
            (settleExistingPayment c o1 m.id).1,
          outcomeToHResult (settleExistingPayment c o1 m.id).2)
      else (handleBaseEffs oid m.orderNumber ++ es, HResult.done o1)) := by
  have hstmem : o.state ∈ vendureStatesThatRequireAction := by
    rw [hst]; simp [vendureStatesThatRequireAction]
  simp only [handleMollieStatusUpdate, hk]
  rw [if_neg (by simp [hs, mollieStatesThatRequireAction]), if_neg (by simpa using hdup),
    if_neg (by simpa using hstmem), if_neg (by simp [hs]), if_pos ⟨hst, hs⟩, haddp]
  dsimp only
  by_cases hac : pm.autoCapture = true
  · rw [if_pos (And.intro hac hs), if_pos hac]
  · rw [if_neg (fun hx => hac hx.1), if_neg hac]

theorem handle_authorized_branch_err (c : Collab) (pm : PaymentMethodConfig) (k : String)
    (m : MollieOrder) (o o1 : LocalOrder) (oid : String) (es : List Eff) (e : HandleError)
    (hk : pm.apiKey = some k)
    (hs : m.status = OrderStatus.authorized)
    (hdup : ¬(o.orderPlacedAt.isSome = true ∧
      o.payments.find? (fun p => p.transactionId == some m.id) = none))
    (hst : o.state = OrderState.AddingItems)
    (haddp : addPayment c o (amountToCents m.amount) (some m.id) PaymentStatus.Authorized =
      (es, Outcome.err e o1)) :
    handleMollieStatusUpdate c (some pm) m (some o) oid =
      (handleBaseEffs oid m.orderNumber ++ es, HResult.fatal e (some o1)) := by
  have hstmem : o.state ∈ vendureStatesThatRequireAction := by
    rw [hst]; simp [vendureStatesThatRequireAction]
  simp only [handleMollieStatusUpdate, hk]
  rw [if_neg (by simp [hs, mollieStatesThatRequireAction]), if_neg (by simpa using hdup),
    if_neg (by simpa using hstmem), if_neg (by simp [hs]), if_pos ⟨hst, hs⟩, haddp]

theorem handle_authorized_other_state (c : Collab) (pm : PaymentMethodConfig) (k : String)
    (m : MollieOrder) (o : LocalOrder) (oid : String)
    (hk : pm.apiKey = some k)
    (hs : m.status = OrderStatus.authorized)
    (hdup : ¬(o.orderPlacedAt.isSome = true ∧
      o.payments.find? (fun p => p.transactionId == some m.id) = none))
    (hst : o.state ∈ vendureStatesThatRequireAction)
    (hna : o.state ≠ OrderState.AddingItems) :
    handleMollieStatusUpdate c (some pm) m (some o) oid =
      (handleBaseEffs oid m.orderNumber,
        HResult.fatal (HandleError.unhandledTransition m.status o.state) (some o)) := by
  simp only [handleMollieStatusUpdate, hk]
  rw [if_neg (by simp [hs, mollieStatesThatRequireAction]), if_neg (by simpa using hdup),
    if_neg (by simpa using hst), if_neg (by simp [hs]), if_neg (fun hx => hna hx.1),
    if_neg (by simp [hs]), if_neg (by simp [hs])]

theorem handle_completed_authorized_state (c : Collab) (pm : PaymentMethodConfig) (k : String)
    (m : MollieOrder) (o : LocalOrder) (oid : String)
    (hk : pm.apiKey = some k)
    (hs : m.status = OrderStatus.completed)
    (hdup : ¬(o.orderPlacedAt.isSome = true ∧
      o.payments.find? (fun p => p.transactionId == some m.id) = none))
    (hst : o.state = OrderState.PaymentAuthorized) :
    handleMollieStatusUpdate c (some pm) m (some o) oid =
      (handleBaseEffs oid m.orderNumber ++ (settleExistingPayment c o m.id).1,
        outcomeToHResult (settleExistingPayment c o m.id).2) := by
  have hstmem : o.state ∈ vendureStatesThatRequireAction := by
    rw [hst]; simp [vendureStatesThatRequireAction]
  simp only [handleMollieStatusUpdate, hk]
  rw [if_neg (by simp [hs, mollieStatesThatRequireAction]), if_neg (by simpa using hdup),
    if_neg (by simpa using hstmem), if_neg (by simp [hs]), if_neg (by simp [hs]),
    if_pos ⟨hst, hs⟩]

theorem handle_completed_autocapture_noop (c : Collab) (pm : PaymentMethodConfig) (k : String)
    (m : MollieOrder) (o : LocalOrder) (oid : String)
    (hk : pm.apiKey = some k)
    (hs : m.status = OrderStatus.completed)
    (hdup : ¬(o.orderPlacedAt.isSome = true ∧
      o.payments.find? (fun p => p.transactionId == some m.id) = none))
    (hst : o.state ∈ vendureStatesThatRequireAction)
    (hna : o.state ≠ OrderState.PaymentAuthorized)
    (hac : pm.autoCapture = true) :
    handleMollieStatusUpdate c (some pm) m (some o) oid =
      (handleBaseEffs oid m.orderNumber, HResult.done o) := by
  simp only [handleMollieStatusUpdate, hk]
  rw [if_neg (by simp [hs, mollieStatesThatRequireAction]), if_neg (by simpa using hdup),
    if_neg (by simpa using hst), if_neg (by simp [hs]), if_neg (by simp [hs]),
    if_neg (fun hx => hna hx.1), if_pos ⟨hac, hs⟩]

theorem handle_unhandled (c : Collab) (pm : PaymentMethodConfig) (k : String)
    (m : MollieOrder) (o : LocalOrder) (oid : String)
    (hk : pm.apiKey = some k)
    (hs : m.status ∈ mollieStatesThatRequireAction)
    (hdup : ¬(o.orderPlacedAt.isSome = true ∧
      o.payments.find? (fun p => p.transactionId == some m.id) = none))
    (hst : o.state ∈ vendureStatesThatRequireAction)
    (hnp : m.status ≠ OrderStatus.paid)
    (hna : ¬(o.state = OrderState.AddingItems ∧ m.status = OrderStatus.authorized))
    (hnc : ¬(o.state = OrderState.PaymentAuthorized ∧ m.status = OrderStatus.completed))
    (hnac : ¬(pm.autoCapture = true ∧ m.status = OrderStatus.completed)) :
    handleMollieStatusUpdate c (some pm) m (some o) oid =
      (handleBaseEffs oid m.orderNumber,
        HResult.fatal (HandleError.unhandledTransition m.status o.state) (some o)) := by
  simp only [handleMollieStatusUpdate, hk]
  rw [if_neg (by simpa using hs), if_neg (by simpa using hdup), if_neg (by simpa using hst),
    if_neg hnp, if_neg hna, if_neg hnc, if_neg (by simpa using hnac)]

/-- C1: when the fetched provider status is not one of the actionable statuses, or
the local order's state is not one of the eligible states, the handler issues no
mutating collaborator call (no state transition, no payment attach, no settlement,
no refund) and returns normally with the order untouched. -/
theorem C1_ineligible_reconcile_is_noop (c : Collab) (pm : PaymentMethodConfig) (k : String)
    (m : MollieOrder) (o : LocalOrder) (oid : String)
    (hk : pm.apiKey = some k)
    (hcase : m.status ∉ mollieStatesThatRequireAction ∨
      o.state ∉ vendureStatesThatRequireAction) :
    (handleMollieStatusUpdate c (some pm) m (some o) oid).1.filter Eff.isMutation = [] ∧
    (handleMollieStatusUpdate c (some pm) m (some o) oid).2 = HResult.done o := by
  rcases hcase with hs | hst
  · rw [handle_status_gate c pm k m o oid hk hs]
    exact ⟨rfl, rfl⟩
  · by_cases hs : m.status ∈ mollieStatesThatRequireAction
    · by_cases hdup : o.orderPlacedAt.isSome = true ∧
          o.payments.find? (fun p => p.transactionId == some m.id) = none
      · rw [handle_duplicate_gate c pm k m o oid hk hs hdup.1 hdup.2]
        exact ⟨rfl, rfl⟩
      · rw [handle_state_gate c pm k m o oid hk hs hdup hst]
        exact ⟨rfl, rfl⟩
    · rw [handle_status_gate c pm k m o oid hk hs]
      exact ⟨rfl, rfl⟩

/-- Witness for C1 at a concrete input: provider status `expired`, an order in
`ArrangingPayment`. -/
theorem C1_ineligible_reconcile_is_noop_witness :
    (⟨"mollie", some "key", false⟩ : PaymentMethodConfig).apiKey = some "key" ∧
    ((⟨"ord_1", OrderStatus.expired, ⟨10, 0⟩, "X"⟩ : MollieOrder).status ∉
        mollieStatesThatRequireAction ∨
      (⟨"X", OrderState.ArrangingPayment, [], none⟩ : LocalOrder).state ∉
        vendureStatesThatRequireAction) ∧
    ((handleMollieStatusUpdate ⟨true, true, true⟩ (some ⟨"mollie", some "key", false⟩)
        ⟨"ord_1", OrderStatus.expired, ⟨10, 0⟩, "X"⟩
        (some ⟨"X", OrderState.ArrangingPayment, [], none⟩) "ord_1").1.filter Eff.isMutation
        = [] ∧
      (handleMollieStatusUpdate ⟨true, true, true⟩ (some ⟨"mollie", some "key", false⟩)
        ⟨"ord_1", OrderStatus.expired, ⟨10, 0⟩, "X"⟩
        (some ⟨"X", OrderState.ArrangingPayment, [], none⟩) "ord_1").2 =
        HResult.done ⟨"X", OrderState.ArrangingPayment, [], none⟩) :=
  ⟨rfl, Or.inl (by decide),
    C1_ineligible_reconcile_is_noop ⟨true, true, true⟩ ⟨"mollie", some "key", false⟩ "key"
      ⟨"ord_1", OrderStatus.expired, ⟨10, 0⟩, "X"⟩
      ⟨"X", OrderState.ArrangingPayment, [], none⟩ "ord_1" rfl (Or.inl (by decide))⟩

/-- C2: with an actionable provider status, an order that already carries a
placement timestamp and none of whose payments matches the provider order id, the
handler issues no mutating call and in particular never a refund, logs an error,
and returns with the order untouched. -/
theorem C2_double_payment_no_mutation_no_refund (c : Collab) (pm : PaymentMethodConfig)
    (k : String) (m : MollieOrder) (o : LocalOrder) (oid : String)
    (hk : pm.apiKey = some k)
    (hs : m.status ∈ mollieStatesThatRequireAction)
    (hplaced : o.orderPlacedAt.isSome = true)
    (hfind : o.payments.find? (fun p => p.transactionId == some m.id) = none) :
    (handleMollieStatusUpdate c (some pm) m (some o) oid).1.filter Eff.isMutation = [] ∧
    (handleMollieStatusUpdate c (some pm) m (some o) oid).1.filter Eff.isRefund = [] ∧
    Eff.logError ∈ (handleMollieStatusUpdate c (some pm) m (some o) oid).1 ∧
    (handleMollieStatusUpdate c (some pm) m (some o) oid).2 = HResult.done o := by
  rw [handle_duplicate_gate c pm k m o oid hk hs hplaced hfind]
  refine ⟨rfl, rfl, ?_, rfl⟩
  simp [handleBaseEffs]

/-- Witness for C2 at a concrete input: a placed order with a payment for a
different provider order id, receiving a `paid` notification. -/
theorem C2_double_payment_no_mutation_no_refund_witness :
    (⟨"mollie", some "key", false⟩ : PaymentMethodConfig).apiKey = some "key" ∧
    (⟨"ord_2", OrderStatus.paid, ⟨10, 0⟩, "X"⟩ : MollieOrder).status ∈
      mollieStatesThatRequireAction ∧
    (⟨"X", OrderState.PaymentSettled, [⟨0, some "ord_1", 1000, PaymentStatus.Settled⟩],
      some 1⟩ : LocalOrder).orderPlacedAt.isSome = true ∧
    (⟨"X", OrderState.PaymentSettled, [⟨0, some "ord_1", 1000, PaymentStatus.Settled⟩],
      some 1⟩ : LocalOrder).payments.find?
        (fun p => p.transactionId ==
          some (⟨"ord_2", OrderStatus.paid, ⟨10, 0⟩, "X"⟩ : MollieOrder).id) = none ∧
    ((handleMollieStatusUpdate ⟨true, true, true⟩ (some ⟨"mollie", some "key", false⟩)
        ⟨"ord_2", OrderStatus.paid, ⟨10, 0⟩, "X"⟩
        (some ⟨"X", OrderState.PaymentSettled, [⟨0, some "ord_1", 1000, PaymentStatus.Settled⟩],
          some 1⟩) "ord_2").1.filter Eff.isMutation = [] ∧
      (handleMollieStatusUpdate ⟨true, true, true⟩ (some ⟨"mollie", some "key", false⟩)
        ⟨"ord_2", OrderStatus.paid, ⟨10, 0⟩, "X"⟩
        (some ⟨"X", OrderState.PaymentSettled, [⟨0, some "ord_1", 1000, PaymentStatus.Settled⟩],
          some 1⟩) "ord_2").1.filter Eff.isRefund = [] ∧
      Eff.logError ∈ (handleMollieStatusUpdate ⟨true, true, true⟩
        (some ⟨"mollie", some "key", false⟩) ⟨"ord_2", OrderStatus.paid, ⟨10, 0⟩, "X"⟩
        (some ⟨"X", OrderState.PaymentSettled, [⟨0, some "ord_1", 1000, PaymentStatus.Settled⟩],
          some 1⟩) "ord_2").1 ∧
      (handleMollieStatusUpdate ⟨true, true, true⟩ (some ⟨"mollie", some "key", false⟩)
        ⟨"ord_2", OrderStatus.paid, ⟨10, 0⟩, "X"⟩
        (some ⟨"X", OrderState.PaymentSettled, [⟨0, some "ord_1", 1000, PaymentStatus.Settled⟩],
          some 1⟩) "ord_2").2 =
        HResult.done ⟨"X", OrderState.PaymentSettled,
          [⟨0, some "ord_1", 1000, PaymentStatus.Settled⟩], some 1⟩) :=
  ⟨rfl, by decide, rfl, by decide,
    C2_double_payment_no_mutation_no_refund ⟨true, true, true⟩ ⟨"mollie", some "key", false⟩
      "key" ⟨"ord_2", OrderStatus.paid, ⟨10, 0⟩, "X"⟩
      ⟨"X", OrderState.PaymentSettled, [⟨0, some "ord_1", 1000, PaymentStatus.Settled⟩], some 1⟩
      "ord_2" rfl (by decide) rfl (by decide)⟩

/-- C9: when the payment method exists but no apiKey is configured in its handler
arguments, the handler throws a fatal error, and its empty effect trace shows that
neither a provider fetch nor a local order lookup was issued. -/
theorem C9_missing_apiKey_fatal (c : Collab) (pm : PaymentMethodConfig)
    (m : MollieOrder) (orderLookup : Option LocalOrder) (oid : String)
    (hk : pm.apiKey = none) :
    handleMollieStatusUpdate c (some pm) m orderLookup oid =
      ([], HResult.fatal HandleError.noApiKey none) := by
  simp [handleMollieStatusUpdate, hk]

/-- Witness for C9 at a concrete input. -/
theorem C9_missing_apiKey_fatal_witness :
    (⟨"mollie", none, true⟩ : PaymentMethodConfig).apiKey = none ∧
    handleMollieStatusUpdate ⟨true, true, true⟩ (some ⟨"mollie", none, true⟩)
      ⟨"ord_1", OrderStatus.paid, ⟨10, 0⟩, "X"⟩
      (some ⟨"X", OrderState.ArrangingPayment, [], none⟩) "ord_1" =
      ([], HResult.fatal HandleError.noApiKey none) :=
  ⟨rfl, C9_missing_apiKey_fatal ⟨true, true, true⟩ ⟨"mollie", none, true⟩
    ⟨"ord_1", OrderStatus.paid, ⟨10, 0⟩, "X"⟩
    (some ⟨"X", OrderState.ArrangingPayment, [], none⟩) "ord_1" rfl⟩

/-- C4: provider status `paid` with the local order in an eligible state (the
earlier gates passing, the store accepting the calls): the handler attaches
exactly one payment, with status `Settled` and the provider order's amount in
cents, and returns normally. -/
theorem C4_paid_attaches_one_settled_payment (c : Collab) (pm : PaymentMethodConfig)
    (k : String) (m : MollieOrder) (o : LocalOrder) (oid : String)
    (hk : pm.apiKey = some k)
    (hs : m.status = OrderStatus.paid)
    (hst : o.state ∈ vendureStatesThatRequireAction)
    (hdup : ¬(o.orderPlacedAt.isSome = true ∧
      o.payments.find? (fun p => p.transactionId == some m.id) = none))
    (htr : c.transitionOk = true) (hat : c.attachOk = true) :
    (handleMollieStatusUpdate c (some pm) m (some o) oid).1.filter Eff.isAttach =
      [Eff.attachPayment (amountToCents m.amount) (some m.id) PaymentStatus.Settled] ∧
    ∃ o1, (handleMollieStatusUpdate c (some pm) m (some o) oid).2 = HResult.done o1 := by
  rw [handle_paid_branch c pm k m o oid hk hs hdup hst]
  by_cases harr : o.state = OrderState.ArrangingPayment ∨
      o.state = OrderState.ArrangingAdditionalPayment
  · rw [addPayment_arranging c o _ _ _ harr hat]
    exact ⟨rfl, _, rfl⟩
  · push_neg at harr
    rw [addPayment_transitioning c o _ _ _ harr htr hat]
    exact ⟨rfl, _, rfl⟩

/-- Witness for C4 at a concrete input: status `paid`, order arranging payment,
amount 10.00 (1000 cents). -/
theorem C4_paid_attaches_one_settled_payment_witness :
    samplePm.apiKey = some "key" ∧
    samplePaidMO.status = OrderStatus.paid ∧
    sampleArrangingLO.state ∈ vendureStatesThatRequireAction ∧
    ¬(sampleArrangingLO.orderPlacedAt.isSome = true ∧
      sampleArrangingLO.payments.find?
        (fun p => p.transactionId == some samplePaidMO.id) = none) ∧
    ((handleMollieStatusUpdate allOk (some samplePm) samplePaidMO (some sampleArrangingLO)
        "ord_1").1.filter Eff.isAttach =
      [Eff.attachPayment (amountToCents samplePaidMO.amount) (some samplePaidMO.id)
        PaymentStatus.Settled] ∧
      ∃ o1, (handleMollieStatusUpdate allOk (some samplePm) samplePaidMO
        (some sampleArrangingLO) "ord_1").2 = HResult.done o1) :=
  ⟨rfl, rfl, by decide, by decide,
    C4_paid_attaches_one_settled_payment allOk samplePm "key" samplePaidMO sampleArrangingLO
      "ord_1" rfl rfl (by decide) (by decide) rfl rfl⟩

/-- C5: provider status `authorized` with the local order in `AddingItems` (gates
passing, store accepting): exactly one payment with status `Authorized` is
attached; with auto-capture disabled no settlement call is issued and the handler
returns normally; with auto-capture enabled a settlement call is issued for that
same payment (the one carrying the provider transaction id). -/
theorem C5_authorized_payment_and_autocapture (c : Collab) (pm : PaymentMethodConfig)
    (k : String) (m : MollieOrder) (o : LocalOrder) (oid : String)
    (hk : pm.apiKey = some k)
    (hs : m.status = OrderStatus.authorized)
    (hst : o.state = OrderState.AddingItems)
    (hplaced : o.orderPlacedAt = none)
    (hfind : o.payments.find? (fun p => p.transactionId == some m.id) = none)
    (htr : c.transitionOk = true) (hat : c.attachOk = true) :
    (handleMollieStatusUpdate c (some pm) m (some o) oid).1.filter Eff.isAttach =
      [Eff.attachPayment (amountToCents m.amount) (some m.id) PaymentStatus.Authorized] ∧
    (pm.autoCapture = false →
      (handleMollieStatusUpdate c (some pm) m (some o) oid).1.filter Eff.isSettle = [] ∧
      ∃ o1, (handleMollieStatusUpdate c (some pm) m (some o) oid).2 = HResult.done o1) ∧
    (pm.autoCapture = true →
      (handleMollieStatusUpdate c (some pm) m (some o) oid).1.filter Eff.isSettle =
        [Eff.settlePayment o.payments.length]) := by
  have hdup : ¬(o.orderPlacedAt.isSome = true ∧
      o.payments.find? (fun p => p.transactionId == some m.id) = none) := by
    rw [hplaced]; rintro ⟨hx, -⟩; simp at hx
  have harr : o.state ≠ OrderState.ArrangingPayment ∧
      o.state ≠ OrderState.ArrangingAdditionalPayment := by
    rw [hst]; exact ⟨by decide, by decide⟩
  have haddp := addPayment_transitioning c o (amountToCents m.amount) (some m.id)
    PaymentStatus.Authorized harr htr hat
  rw [handle_authorized_branch_ok c pm k m o _ oid _ hk hs hdup hst haddp]
  have hfind1 : (attachPaymentToOrder { o with state := OrderState.ArrangingPayment }
      (amountToCents m.amount) (some m.id) PaymentStatus.Authorized).payments.find?
      (fun p => p.transactionId == some m.id) =
      some ⟨o.payments.length, some m.id, amountToCents m.amount, PaymentStatus.Authorized⟩ := by
    rw [find?_attach_new]
    exact hfind
  have hsettr := settleExisting_found_trace c
    (attachPaymentToOrder { o with state := OrderState.ArrangingPayment }
      (amountToCents m.amount) (some m.id) PaymentStatus.Authorized) m.id _ hfind1
  by_cases hac : pm.autoCapture = true
  · rw [if_pos hac]
    refine ⟨?_, fun hf => absurd hac (by rw [hf]; decide), fun _ => ?_⟩
    · rw [hsettr]; rfl
    · rw [hsettr]; rfl
  · rw [if_neg hac]
    have hacf : pm.autoCapture = false := by
      cases hvac : pm.autoCapture
      · rfl
      · exact absurd hvac hac
    exact ⟨rfl, fun _ => ⟨rfl, _, rfl⟩, fun ht => absurd ht hac⟩

/-- Witness for C5 at a concrete input: status `authorized`, order adding items,
auto-capture enabled, amount 10.00 (1000 cents). -/
theorem C5_authorized_payment_and_autocapture_witness :
    samplePmAC.apiKey = some "key" ∧
    sampleAuthMO.status = OrderStatus.authorized ∧
    sampleAddingLO.state = OrderState.AddingItems ∧
    sampleAddingLO.orderPlacedAt = none ∧
    sampleAddingLO.payments.find? (fun p => p.transactionId == some sampleAuthMO.id) = none ∧
    ((handleMollieStatusUpdate allOk (some samplePmAC) sampleAuthMO (some sampleAddingLO)
        "ord_1").1.filter Eff.isAttach =
      [Eff.attachPayment (amountToCents sampleAuthMO.amount) (some sampleAuthMO.id)
        PaymentStatus.Authorized] ∧
      (samplePmAC.autoCapture = false →
        (handleMollieStatusUpdate allOk (some samplePmAC) sampleAuthMO (some sampleAddingLO)
          "ord_1").1.filter Eff.isSettle = [] ∧
        ∃ o1, (handleMollieStatusUpdate allOk (some samplePmAC) sampleAuthMO
          (some sampleAddingLO) "ord_1").2 = HResult.done o1) ∧
      (samplePmAC.autoCapture = true →
        (handleMollieStatusUpdate allOk (some samplePmAC) sampleAuthMO (some sampleAddingLO)
          "ord_1").1.filter Eff.isSettle =
          [Eff.settlePayment sampleAddingLO.payments.length])) :=
  ⟨rfl, rfl, rfl, rfl, by decide,
    C5_authorized_payment_and_autocapture allOk samplePmAC "key" sampleAuthMO sampleAddingLO
      "ord_1" rfl rfl rfl rfl (by decide) rfl rfl⟩

/-- C6: provider status `completed` with the local order in `PaymentAuthorized`
(gates passing): the handler defers entirely to `settleExistingPayment`, which
fails with the payment-not-found error when no payment matches the provider order
id, and settles the matching payment when one exists. -/
theorem C6_completed_settles_existing (c : Collab) (pm : PaymentMethodConfig) (k : String)
    (m : MollieOrder) (o : LocalOrder) (oid : String)
    (hk : pm.apiKey = some k)
    (hs : m.status = OrderStatus.completed)
    (hst : o.state = OrderState.PaymentAuthorized)
    (hdup : ¬(o.orderPlacedAt.isSome = true ∧
      o.payments.find? (fun p => p.transactionId == some m.id) = none)) :
    (handleMollieStatusUpdate c (some pm) m (some o) oid =
      (handleBaseEffs oid m.orderNumber ++ (settleExistingPayment c o m.id).1,
        outcomeToHResult (settleExistingPayment c o m.id).2)) ∧
    (o.payments.find? (fun p => p.transactionId == some m.id) = none →
      settleExistingPayment c o m.id =
        ([], Outcome.err (HandleError.paymentNotFound m.id) o)) ∧
    (∀ q, o.payments.find? (fun p => p.transactionId == some m.id) = some q →
      c.settleOk = true →
      settleExistingPayment c o m.id =
        ([Eff.settlePayment q.id], Outcome.ok (settlePaymentInOrder o q.id))) := by
  refine ⟨handle_completed_authorized_state c pm k m o oid hk hs hdup hst, ?_, ?_⟩
  · intro hnone
    exact settleExisting_not_found c o m.id hnone
  · intro q hq hok
    exact settleExisting_found c o m.id q hq hok

/-- Witness for C6 at a concrete input: a `PaymentAuthorized` order holding the
matching authorized payment. -/
theorem C6_completed_settles_existing_witness :
    samplePm.apiKey = some "key" ∧
    sampleCompletedMO.status = OrderStatus.completed ∧
    sampleAuthorizedLO.state = OrderState.PaymentAuthorized ∧
    ¬(sampleAuthorizedLO.orderPlacedAt.isSome = true ∧
      sampleAuthorizedLO.payments.find?
        (fun p => p.transactionId == some sampleCompletedMO.id) = none) ∧
    ((handleMollieStatusUpdate allOk (some samplePm) sampleCompletedMO
        (some sampleAuthorizedLO) "ord_1" =
      (handleBaseEffs "ord_1" sampleCompletedMO.orderNumber ++
          (settleExistingPayment allOk sampleAuthorizedLO sampleCompletedMO.id).1,
        outcomeToHResult
          (settleExistingPayment allOk sampleAuthorizedLO sampleCompletedMO.id).2)) ∧
      (sampleAuthorizedLO.payments.find?
          (fun p => p.transactionId == some sampleCompletedMO.id) = none →
        settleExistingPayment allOk sampleAuthorizedLO sampleCompletedMO.id =
          ([], Outcome.err (HandleError.paymentNotFound sampleCompletedMO.id)
            sampleAuthorizedLO)) ∧
      (∀ q, sampleAuthorizedLO.payments.find?
          (fun p => p.transactionId == some sampleCompletedMO.id) = some q →
        allOk.settleOk = true →
        settleExistingPayment allOk sampleAuthorizedLO sampleCompletedMO.id =
          ([Eff.settlePayment q.id],
            Outcome.ok (settlePaymentInOrder sampleAuthorizedLO q.id)))) :=
  ⟨rfl, rfl, rfl, by decide,
    C6_completed_settles_existing allOk samplePm "key" sampleCompletedMO sampleAuthorizedLO
      "ord_1" rfl rfl rfl (by decide)⟩

/-- C7: a (status, state) pair that passes all gates but matches no decision-table
row fails with the unhandled-transition error, except that with auto-capture
configured and status `completed` the call is a no-op (base trace only, order
untouched). -/
theorem C7_unmatched_pair_fails_except_autocapture (c : Collab) (pm : PaymentMethodConfig)
    (k : String) (m : MollieOrder) (o : LocalOrder) (oid : String)
    (hk : pm.apiKey = some k)
    (hs : m.status ∈ mollieStatesThatRequireAction)
    (hst : o.state ∈ vendureStatesThatRequireAction)
    (hdup : ¬(o.orderPlacedAt.isSome = true ∧
      o.payments.find? (fun p => p.transactionId == some m.id) = none))
    (hnp : m.status ≠ OrderStatus.paid)
    (hna : ¬(o.state = OrderState.AddingItems ∧ m.status = OrderStatus.authorized))
    (hnc : ¬(o.state = OrderState.PaymentAuthorized ∧ m.status = OrderStatus.completed)) :
    (pm.autoCapture = true ∧ m.status = OrderStatus.completed →
      handleMollieStatusUpdate c (some pm) m (some o) oid =
        (handleBaseEffs oid m.orderNumber, HResult.done o)) ∧
    (¬(pm.autoCapture = true ∧ m.status = OrderStatus.completed) →
      handleMollieStatusUpdate c (some pm) m (some o) oid =
        (handleBaseEffs oid m.orderNumber,
          HResult.fatal (HandleError.unhandledTransition m.status o.state) (some o))) := by
  constructor
  · rintro ⟨hac, hcomp⟩
    exact handle_completed_autocapture_noop c pm k m o oid hk hcomp hdup hst
      (fun h => hnc ⟨h, hcomp⟩) hac
  · intro hnac
    exact handle_unhandled c pm k m o oid hk hs hdup hst hnp hna hnc hnac

/-- Witness for C7 at a concrete input: status `completed`, order adding items,
no auto-capture. -/
theorem C7_unmatched_pair_fails_except_autocapture_witness :
    samplePm.apiKey = some "key" ∧
    sampleCompletedMO.status ∈ mollieStatesThatRequireAction ∧
    sampleAddingLO.state ∈ vendureStatesThatRequireAction ∧
    sampleCompletedMO.status ≠ OrderStatus.paid ∧
    ¬(sampleAddingLO.state = OrderState.AddingItems ∧
      sampleCompletedMO.status = OrderStatus.authorized) ∧
    ¬(sampleAddingLO.state = OrderState.PaymentAuthorized ∧
      sampleCompletedMO.status = OrderStatus.completed) ∧
    ((samplePm.autoCapture = true ∧ sampleCompletedMO.status = OrderStatus.completed →
      handleMollieStatusUpdate allOk (some samplePm) sampleCompletedMO (some sampleAddingLO)
        "ord_1" =
        (handleBaseEffs "ord_1" sampleCompletedMO.orderNumber, HResult.done sampleAddingLO)) ∧
    (¬(samplePm.autoCapture = true ∧ sampleCompletedMO.status = OrderStatus.completed) →
      handleMollieStatusUpdate allOk (some samplePm) sampleCompletedMO (some sampleAddingLO)
        "ord_1" =
        (handleBaseEffs "ord_1" sampleCompletedMO.orderNumber,
          HResult.fatal
            (HandleError.unhandledTransition sampleCompletedMO.status sampleAddingLO.state)
            (some sampleAddingLO)))) :=
  ⟨rfl, by decide, by decide, by decide, by decide, by decide,
    C7_unmatched_pair_fails_except_autocapture allOk samplePm "key" sampleCompletedMO
      sampleAddingLO "ord_1" rfl (by decide) (by decide) (by decide) (by decide) (by decide)
      (by decide)⟩

/-- C8: with every validation gate passing, `createPaymentIntent` computes the
outstanding amount as the order total (with tax) minus the amount covered by
existing payments; when it is zero the order is settled directly through a
zero-amount payment with no provider order created, otherwise a provider order
over the outstanding amount is created and its hosted checkout url is returned. -/
theorem C8_outstanding_amount_paths (c : Collab) (allowedMethods : List String)
    (r k u : String) (io : IntentOrder) (pm : IntentMethod) (ct : Bool)
    (hst : io.ord.state = OrderState.ArrangingPayment)
    (hf : io.customerFirstName.isEmpty = false)
    (hl : io.customerLastName.isEmpty = false)
    (hkey : pm.apiKey = some k)
    (haddr : io.hasCompleteAddress = true)
    (hat : c.attachOk = true) :
    (totalCoveredByPayments io.ord.payments = io.totalWithTax →
      createPaymentIntent c allowedMethods ⟨some r, none⟩ (some io) (some pm) true ct
          (some u) =
        ([Eff.attachPayment 0 none PaymentStatus.Settled], IntentResult.url r)) ∧
    (totalCoveredByPayments io.ord.payments ≠ io.totalWithTax →
      createPaymentIntent c allowedMethods ⟨some r, none⟩ (some io) (some pm) true ct
          (some u) =
        ([Eff.createExternalOrder ((io.totalWithTax : Int) -
            (totalCoveredByPayments io.ord.payments : Int))], IntentResult.url u)) := by
  constructor
  · intro hcov
    have hz : (io.totalWithTax : Int) - (totalCoveredByPayments io.ord.payments : Int) = 0 := by
      rw [hcov, sub_self]
    simp [createPaymentIntent, createPaymentIntentChecked, hst, hf, hl, hkey, haddr, hz,
      addPayment, attachStep, hat]
  · intro hcov
    have hz : (io.totalWithTax : Int) - (totalCoveredByPayments io.ord.payments : Int) ≠ 0 := by
      rw [sub_ne_zero]
      exact fun hx => hcov (Nat.cast_injective hx).symm
    simp [createPaymentIntent, createPaymentIntentChecked, hst, hf, hl, hkey, haddr, hz]

/-- Witness for C8 at concrete inputs: an order of total 1000 with no payments
(outstanding 1000, provider order created), exercised through the theorem. -/
theorem C8_outstanding_amount_paths_witness :
    (⟨sampleArrangingLO, 1000, "Jane", "Doe", true⟩ : IntentOrder).ord.state =
      OrderState.ArrangingPayment ∧
    ((totalCoveredByPayments
        (⟨sampleArrangingLO, 1000, "Jane", "Doe", true⟩ : IntentOrder).ord.payments = 1000 →
      createPaymentIntent allOk ["ideal"] ⟨some "https://r", none⟩
          (some ⟨sampleArrangingLO, 1000, "Jane", "Doe", true⟩)
          (some ⟨"mollie", some "key", none⟩) true true (some "https://checkout") =
        ([Eff.attachPayment 0 none PaymentStatus.Settled], IntentResult.url "https://r")) ∧
    (totalCoveredByPayments
        (⟨sampleArrangingLO, 1000, "Jane", "Doe", true⟩ : IntentOrder).ord.payments ≠ 1000 →
      createPaymentIntent allOk ["ideal"] ⟨some "https://r", none⟩
          (some ⟨sampleArrangingLO, 1000, "Jane", "Doe", true⟩)
          (some ⟨"mollie", some "key", none⟩) true true (some "https://checkout") =
        ([Eff.createExternalOrder ((1000 : Int) - (totalCoveredByPayments
            (⟨sampleArrangingLO, 1000, "Jane", "Doe", true⟩ : IntentOrder).ord.payments : Int))],
          IntentResult.url "https://checkout"))) :=
  ⟨rfl,
    C8_outstanding_amount_paths allOk ["ideal"] "https://r" "key" "https://checkout"
      ⟨sampleArrangingLO, 1000, "Jane", "Doe", true⟩ ⟨"mollie", some "key", none⟩ true
      rfl rfl rfl rfl rfl rfl⟩

end VendureMollie

namespace VendurePromotion

/-- C10: after every successful `createPromotion` or `updatePromotion` call, the
in-memory `activePromotions` cache equals exactly the promotions with
`enabled = true` in the store; and an `updatePromotion` whose id is absent from
the store returns the entity-not-found error with the state (hence the cache)
unchanged. -/
theorem C10_promotion_cache_invariant (avC avA : List String) (s : PromoState)
    (ci : CreateInput) (ui : UpdateInput) :
    (∀ s1 p, createPromotion avC avA s ci = (s1, Except.ok p) →
      s1.activePromotions = s1.store.filter (fun q => q.enabled)) ∧
    (∀ s1 p, updatePromotion avC avA s ui = (s1, Except.ok p) →
      s1.activePromotions = s1.store.filter (fun q => q.enabled)) ∧
    (s.store.find? (fun q => q.id == ui.id) = none →
      updatePromotion avC avA s ui =
        (s, Except.error (PromoError.entityNotFound ui.id))) := by
  refine ⟨?_, ?_, ?_⟩
  · intro s1 p h
    unfold createPromotion at h
    cases h1 : ci.conditions.mapM (parseOperationArgs avC) <;> rw [h1] at h
    · simp at h
    · cases h2 : ci.actions.mapM (parseOperationArgs avA) <;> rw [h2] at h
      · simp at h
      · dsimp only at h
        rw [Prod.mk.injEq] at h
        rw [← h.1]
        rfl
  · intro s1 p h
    unfold updatePromotion at h
    cases hfind : s.store.find? (fun q => q.id == ui.id) <;> rw [hfind] at h
    · simp at h
    · cases h1 : parseOptionalOps avC ui.conditions <;> rw [h1] at h
      · simp at h
      · cases h2 : parseOptionalOps avA ui.actions <;> rw [h2] at h
        · simp at h
        · dsimp only at h
          rw [Prod.mk.injEq] at h
          rw [← h.1]
          rfl
  · intro hfind
    unfold updatePromotion
    rw [hfind]

/-- Witness for C10 at concrete inputs: one created promotion refreshing the
cache, and an update for a missing id failing without touching the state. -/
theorem C10_promotion_cache_invariant_witness :
    ((createPromotion ["c1"] ["a1"] ⟨[], 0, []⟩ ⟨"p", true, ["c1"], ["a1"]⟩).1.activePromotions =
      (createPromotion ["c1"] ["a1"] ⟨[], 0, []⟩
        ⟨"p", true, ["c1"], ["a1"]⟩).1.store.filter (fun q => q.enabled)) ∧
    updatePromotion ["c1"] ["a1"] ⟨[], 0, []⟩ ⟨5, none, none, none, none⟩ =
      (⟨[], 0, []⟩, Except.error (PromoError.entityNotFound 5)) :=
  ⟨(C10_promotion_cache_invariant ["c1"] ["a1"] ⟨[], 0, []⟩ ⟨"p", true, ["c1"], ["a1"]⟩
      ⟨5, none, none, none, none⟩).1 _ ⟨0, "p", true, ["c1"], ["a1"]⟩ rfl,
    (C10_promotion_cache_invariant ["c1"] ["a1"] ⟨[], 0, []⟩ ⟨"p", true, ["c1"], ["a1"]⟩
      ⟨5, none, none, none, none⟩).2.2 rfl⟩

end VendurePromotion

namespace VendureMollie

/-- C3: after a first processing of a notification completes normally on an order
that had no payment yet for the provider transaction id, the resulting order
carries at most one payment with that transaction id, and re-processing the same
notification on the resulting order issues no payment-attach call at all — so a
second payment with that transaction id is never attached. -/
theorem C3_reprocessing_never_duplicates_payment (c c2 : Collab)
    (pm : PaymentMethodConfig) (k : String) (m : MollieOrder) (o o1 : LocalOrder)
    (oid : String)
    (hk : pm.apiKey = some k)
    (h0 : txCount o m.id = 0)
    (h1 : (handleMollieStatusUpdate c (some pm) m (some o) oid).2 = HResult.done o1) :
    txCount o1 m.id ≤ 1 ∧
    (handleMollieStatusUpdate c2 (some pm) m (some o1) oid).1.filter Eff.isAttach = [] := by
  have hfind0 : o.payments.find? (fun p => p.transactionId == some m.id) = none :=
    find?_eq_none_of_txCount_zero o m.id h0
  by_cases hs : m.status ∈ mollieStatesThatRequireAction
  · by_cases hplaced : o.orderPlacedAt.isSome = true
    · rw [handle_duplicate_gate c pm k m o oid hk hs hplaced hfind0] at h1
      simp only [HResult.done.injEq] at h1
      subst h1
      refine ⟨le_of_eq_of_le h0 (Nat.zero_le 1), ?_⟩
      rw [handle_duplicate_gate c2 pm k m o oid hk hs hplaced hfind0]
      rfl
    · have hdup : ¬(o.orderPlacedAt.isSome = true ∧
          o.payments.find? (fun p => p.transactionId == some m.id) = none) :=
        fun hx => hplaced hx.1
      by_cases hst : o.state ∈ vendureStatesThatRequireAction
      · have hs3 : m.status = OrderStatus.completed ∨ m.status = OrderStatus.authorized ∨
            m.status = OrderStatus.paid := by
          simpa [mollieStatesThatRequireAction] using hs
        rcases hs3 with hcs | hcs | hcs
        · -- status completed
          by_cases hpa : o.state = OrderState.PaymentAuthorized
          · rw [handle_completed_authorized_state c pm k m o oid hk hcs hdup hpa,
              settleExisting_not_found c o m.id hfind0] at h1
            simp [outcomeToHResult] at h1
          · by_cases hac : pm.autoCapture = true
            · rw [handle_completed_autocapture_noop c pm k m o oid hk hcs hdup hst hpa hac]
                at h1
              simp only [HResult.done.injEq] at h1
              subst h1
              refine ⟨le_of_eq_of_le h0 (Nat.zero_le 1), ?_⟩
              rw [handle_completed_autocapture_noop c2 pm k m o oid hk hcs hdup hst hpa hac]
              rfl
            · have hnp : m.status ≠ OrderStatus.paid := by rw [hcs]; decide
              have hna : ¬(o.state = OrderState.AddingItems ∧
                  m.status = OrderStatus.authorized) := by
                rintro ⟨-, hx⟩; rw [hcs] at hx; exact absurd hx (by decide)
              have hnc : ¬(o.state = OrderState.PaymentAuthorized ∧
                  m.status = OrderStatus.completed) := fun hx => hpa hx.1
              have hnac : ¬(pm.autoCapture = true ∧ m.status = OrderStatus.completed) :=
                fun hx => hac hx.1
              rw [handle_unhandled c pm k m o oid hk hs hdup hst hnp hna hnc hnac] at h1
              simp at h1
        · -- status authorized
          by_cases hadd : o.state = OrderState.AddingItems
          · have harr2 : o.state ≠ OrderState.ArrangingPayment ∧
                o.state ≠ OrderState.ArrangingAdditionalPayment := by
              rw [hadd]; exact ⟨by decide, by decide⟩
            cases htr : c.transitionOk
            · rw [handle_authorized_branch_err c pm k m o o oid
                [Eff.transitionState OrderState.ArrangingPayment]
                (HandleError.stateTransitionError o.state OrderState.ArrangingPayment)
                hk hcs hdup hadd (addPayment_transition_fails c o _ _ _ harr2 htr)] at h1
              simp at h1
            · cases hat : c.attachOk
              · rw [handle_authorized_branch_err c pm k m o
                  { o with state := OrderState.ArrangingPayment } oid
                  [Eff.transitionState OrderState.ArrangingPayment,
                    Eff.attachPayment (amountToCents m.amount) (some m.id)
                      PaymentStatus.Authorized]
                  HandleError.paymentAttachError
                  hk hcs hdup hadd
                  (addPayment_attach_fails_transitioning c o _ _ _ harr2 htr hat)] at h1
                simp at h1
              · have haddp := addPayment_transitioning c o (amountToCents m.amount)
                  (some m.id) PaymentStatus.Authorized harr2 htr hat
                rw [handle_authorized_branch_ok c pm k m o _ oid _ hk hcs hdup hadd haddp]
                  at h1
                have hfind1 : (attachPaymentToOrder
                    { o with state := OrderState.ArrangingPayment } (amountToCents m.amount)
                    (some m.id) PaymentStatus.Authorized).payments.find?
                    (fun p => p.transactionId == some m.id) =
                    some ⟨o.payments.length, some m.id, amountToCents m.amount,
                      PaymentStatus.Authorized⟩ := by
                  rw [find?_attach_new]
                  exact hfind0
                by_cases hac : pm.autoCapture = true
                · rw [if_pos hac] at h1
                  cases hsok : c.settleOk
                  · rw [settleExisting_found_fails c _ m.id _ hfind1 hsok] at h1
                    simp [outcomeToHResult] at h1
                  · rw [settleExisting_found c _ m.id _ hfind1 hsok] at h1
                    simp only [outcomeToHResult, HResult.done.injEq] at h1
                    subst h1
                    constructor
                    · rw [txCount_settle, txCount_attach, txCount_of_state_update, h0]
                    · have hfindne2 : (settlePaymentInOrder (attachPaymentToOrder
                          { o with state := OrderState.ArrangingPayment }
                          (amountToCents m.amount) (some m.id) PaymentStatus.Authorized)
                          o.payments.length).payments.find?
                          (fun p => p.transactionId == some m.id) ≠ none := by
                        apply find?_settle_ne_none
                        rw [hfind1]
                        exact Option.some_ne_none _
                      have hdup1 : ¬((settlePaymentInOrder (attachPaymentToOrder
                          { o with state := OrderState.ArrangingPayment }
                          (amountToCents m.amount) (some m.id) PaymentStatus.Authorized)
                          o.payments.length).orderPlacedAt.isSome = true ∧
                          (settlePaymentInOrder (attachPaymentToOrder
                          { o with state := OrderState.ArrangingPayment }
                          (amountToCents m.amount) (some m.id) PaymentStatus.Authorized)
                          o.payments.length).payments.find?
                          (fun p => p.transactionId == some m.id) = none) :=
                        fun hx => hfindne2 hx.2
                      have hst1 : (settlePaymentInOrder (attachPaymentToOrder
                          { o with state := OrderState.ArrangingPayment }
                          (amountToCents m.amount) (some m.id) PaymentStatus.Authorized)
                          o.payments.length).state ∉ vendureStatesThatRequireAction := by
                        rw [settle_state_eq]; decide
                      rw [handle_state_gate c2 pm k m _ oid hk hs hdup1 hst1]
                      rfl
                · rw [if_neg hac] at h1
                  simp only [HResult.done.injEq] at h1
                  subst h1
                  constructor
                  · rw [txCount_attach, txCount_of_state_update, h0]
                  · have hfindne2 : (attachPaymentToOrder
                        { o with state := OrderState.ArrangingPayment }
                        (amountToCents m.amount) (some m.id)
                        PaymentStatus.Authorized).payments.find?
                        (fun p => p.transactionId == some m.id) ≠ none :=
                      find?_attach_ne_none _ _ _ _
                    have hdup1 : ¬((attachPaymentToOrder
                        { o with state := OrderState.ArrangingPayment }
                        (amountToCents m.amount) (some m.id)
                        PaymentStatus.Authorized).orderPlacedAt.isSome = true ∧
                        (attachPaymentToOrder
                        { o with state := OrderState.ArrangingPayment }
                        (amountToCents m.amount) (some m.id)
                        PaymentStatus.Authorized).payments.find?
                        (fun p => p.transactionId == some m.id) = none) :=
                      fun hx => hfindne2 hx.2
                    have hst1 : (attachPaymentToOrder
                        { o with state := OrderState.ArrangingPayment }
                        (amountToCents m.amount) (some m.id)
                        PaymentStatus.Authorized).state ∈ vendureStatesThatRequireAction := by
                      rw [attach_state_authorized]; decide
                    have hnp : m.status ≠ OrderStatus.paid := by rw [hcs]; decide
                    have hna : ¬((attachPaymentToOrder
                        { o with state := OrderState.ArrangingPayment }
                        (amountToCents m.amount) (some m.id)
                        PaymentStatus.Authorized).state = OrderState.AddingItems ∧
                        m.status = OrderStatus.authorized) := by
                      rw [attach_state_authorized]
                      rintro ⟨hx, -⟩
                      exact absurd hx (by decide)
                    have hnc : ¬((attachPaymentToOrder
                        { o with state := OrderState.ArrangingPayment }
                        (amountToCents m.amount) (some m.id)
                        PaymentStatus.Authorized).state = OrderState.PaymentAuthorized ∧
                        m.status = OrderStatus.completed) := by
                      rintro ⟨-, hx⟩
                      rw [hcs] at hx
                      exact absurd hx (by decide)
                    have hnac : ¬(pm.autoCapture = true ∧
                        m.status = OrderStatus.completed) := by
                      rintro ⟨-, hx⟩
                      rw [hcs] at hx
                      exact absurd hx (by decide)
                    rw [handle_unhandled c2 pm k m _ oid hk hs hdup1 hst1 hnp hna hnc hnac]
                    rfl
          · rw [handle_authorized_other_state c pm k m o oid hk hcs hdup hst hadd] at h1
            simp at h1
        · -- status paid
          rw [handle_paid_branch c pm k m o oid hk hcs hdup hst] at h1
          by_cases harr : o.state = OrderState.ArrangingPayment ∨
              o.state = OrderState.ArrangingAdditionalPayment
          · cases hat : c.attachOk
            · rw [addPayment_attach_fails_arranging c o _ _ _ harr hat] at h1
              simp [outcomeToHResult] at h1
            · rw [addPayment_arranging c o _ _ _ harr hat] at h1
              simp only [outcomeToHResult, HResult.done.injEq] at h1
              subst h1
              constructor
              · rw [txCount_attach, h0]
              · have hfindne2 : (attachPaymentToOrder o (amountToCents m.amount)
                    (some m.id) PaymentStatus.Settled).payments.find?
                    (fun p => p.transactionId == some m.id) ≠ none :=
                  find?_attach_ne_none _ _ _ _
                have hdup1 : ¬((attachPaymentToOrder o (amountToCents m.amount)
                    (some m.id) PaymentStatus.Settled).orderPlacedAt.isSome = true ∧
                    (attachPaymentToOrder o (amountToCents m.amount)
                    (some m.id) PaymentStatus.Settled).payments.find?
                    (fun p => p.transactionId == some m.id) = none) :=
                  fun hx => hfindne2 hx.2
                have hst1 : (attachPaymentToOrder o (amountToCents m.amount)
                    (some m.id) PaymentStatus.Settled).state ∉
                    vendureStatesThatRequireAction := by
                  rw [attach_state_settled]; decide
                rw [handle_state_gate c2 pm k m _ oid hk hs hdup1 hst1]
                rfl
          · have harr2 : o.state ≠ OrderState.ArrangingPayment ∧
                o.state ≠ OrderState.ArrangingAdditionalPayment :=
              ⟨fun hx => harr (Or.inl hx), fun hx => harr (Or.inr hx)⟩
            cases htr : c.transitionOk
            · rw [addPayment_transition_fails c o _ _ _ harr2 htr] at h1
              simp [outcomeToHResult] at h1
            · cases hat : c.attachOk
              · rw [addPayment_attach_fails_transitioning c o _ _ _ harr2 htr hat] at h1
                simp [outcomeToHResult] at h1
              · rw [addPayment_transitioning c o _ _ _ harr2 htr hat] at h1
                simp only [outcomeToHResult, HResult.done.injEq] at h1
                subst h1
                constructor
                · rw [txCount_attach, txCount_of_state_update, h0]
                · have hfindne2 : (attachPaymentToOrder
                      { o with state := OrderState.ArrangingPayment }
                      (amountToCents m.amount) (some m.id)
                      PaymentStatus.Settled).payments.find?
                      (fun p => p.transactionId == some m.id) ≠ none :=
                    find?_attach_ne_none _ _ _ _
                  have hdup1 : ¬((attachPaymentToOrder
                      { o with state := OrderState.ArrangingPayment }
                      (amountToCents m.amount) (some m.id)
                      PaymentStatus.Settled).orderPlacedAt.isSome = true ∧
                      (attachPaymentToOrder
                      { o with state := OrderState.ArrangingPayment }
                      (amountToCents m.amount) (some m.id)
                      PaymentStatus.Settled).payments.find?
                      (fun p => p.transactionId == some m.id) = none) :=
                    fun hx => hfindne2 hx.2
                  have hst1 : (attachPaymentToOrder
                      { o with state := OrderState.ArrangingPayment }
                      (amountToCents m.amount) (some m.id)
                      PaymentStatus.Settled).state ∉ vendureStatesThatRequireAction := by
                    rw [attach_state_settled]; decide
                  rw [handle_state_gate c2 pm k m _ oid hk hs hdup1 hst1]
                  rfl
      · rw [handle_state_gate c pm k m o oid hk hs hdup hst] at h1
        simp only [HResult.done.injEq] at h1
        subst h1
        refine ⟨le_of_eq_of_le h0 (Nat.zero_le 1), ?_⟩
        rw [handle_state_gate c2 pm k m o oid hk hs hdup hst]
        rfl
  · rw [handle_status_gate c pm k m o oid hk hs] at h1
    simp only [HResult.done.injEq] at h1
    subst h1
    refine ⟨le_of_eq_of_le h0 (Nat.zero_le 1), ?_⟩
    rw [handle_status_gate c2 pm k m o oid hk hs]
    rfl

/-- Witness for C3 at a concrete input: a `paid` notification processed once on an
order with no payments, then re-processed on the resulting settled order. -/
theorem C3_reprocessing_never_duplicates_payment_witness :
    samplePm.apiKey = some "key" ∧
    txCount sampleArrangingLO samplePaidMO.id = 0 ∧
    (handleMollieStatusUpdate allOk (some samplePm) samplePaidMO (some sampleArrangingLO)
        "ord_1").2 =
      HResult.done ⟨"X", OrderState.PaymentSettled,
        [⟨0, some "ord_1", 1000, PaymentStatus.Settled⟩], some 0⟩ ∧
    (txCount (⟨"X", OrderState.PaymentSettled,
        [⟨0, some "ord_1", 1000, PaymentStatus.Settled⟩], some 0⟩ : LocalOrder)
        samplePaidMO.id ≤ 1 ∧
      (handleMollieStatusUpdate allOk (some samplePm) samplePaidMO
        (some ⟨"X", OrderState.PaymentSettled,
          [⟨0, some "ord_1", 1000, PaymentStatus.Settled⟩], some 0⟩)
        "ord_1").1.filter Eff.isAttach = []) :=
  ⟨rfl, by decide, by decide,
    C3_reprocessing_never_duplicates_payment allOk allOk samplePm "key" samplePaidMO
      sampleArrangingLO _ "ord_1" rfl (by decide) (by decide)⟩

end VendureMollie
